import Mathlib

/-
Verification of the dotenv configuration library.

The Go sources are embedded shallowly:
  - strings are lists of characters (`Str`), the process environment is an
    association list threaded explicitly (`Env`), and the global default
    registry is an association list passed as a parameter (`Registry`);
  - external collaborators of the library are parameters: the terminal
    width (terminal.GetSize), the host refusal to set an environment
    variable (os.Setenv, modelled by a `setenvOk` predicate), the home
    directory (os.UserHomeDir, an `Option Str`), the file system
    (a map from file names to the list of lines of the file), and
    fmt.Sprintf rendering of a default value (a `sprint` parameter);
  - a Go runtime panic (the Register type switch default, an
    out-of-range slice index in `pad`) is an `Option` result of `none`;
  - Go errors are an inductive `GoError`.
-/

namespace Dotenv

/-- Str is the model of a Go string: its list of characters. -/
abbrev Str := List Char

/-- Env models the ambient process environment: one value per key. -/
abbrev Env := List (Str × Str)

/- ### Go standard-library string helpers used by the sources -/

/-- Model of ASCII lower-casing, used for strings.EqualFold. -/
def toLowerAscii (c : Char) : Char :=
  if 'A' ≤ c ∧ c ≤ 'Z' then Char.ofNat (c.toNat + 32) else c

/-- Model of strings.EqualFold restricted to ASCII folding (the only
folding relevant to comparison with the literal "true"). -/
def equalFold (a b : Str) : Bool :=
  a.map toLowerAscii == b.map toLowerAscii

/-- Model of the white space characters trimmed by strings.TrimSpace
(ASCII fragment of unicode.IsSpace). -/
def isGoSpace (c : Char) : Bool :=
  (c == ' ') || (c == '\t') || (c == '\n') || (c == '\r') ||
    (c == Char.ofNat 11) || (c == Char.ofNat 12)

/-- Model of strings.TrimSpace. -/
def trimSpace (s : Str) : Str :=
  ((s.dropWhile isGoSpace).reverse.dropWhile isGoSpace).reverse

/-- Model of strings.Index(line, "#"): index of the first occurrence,
none standing for the Go result -1. -/
def goIndexHash : Str → Option Nat
  | [] => none
  | c :: rest => if c = '#' then some 0 else (goIndexHash rest).map (· + 1)

/-- Model of strings.SplitN(line, "=", 2): none when no "=" occurs (Go
returns a one-element slice there), otherwise the part before the first
"=" and the part after it. -/
def splitFirstEq : Str → Option (Str × Str)
  | [] => none
  | c :: rest =>
    if c = '=' then some ([], rest)
    else
      match splitFirstEq rest with
      | some (a, b) => some (c :: a, b)
      | none => none

/-- Model of strings.Split(val, ","). -/
def goSplitComma : Str → List Str
  | [] => [[]]
  | c :: rest =>
    if c = ',' then [] :: goSplitComma rest
    else
      match goSplitComma rest with
      | [] => [[c]]
      | h :: t => (c :: h) :: t

/-- Accumulate the value of a base-10 digit run; none on a non-digit. -/
def digitsValAux (acc : Nat) : Str → Option Nat
  | [] => some acc
  | c :: rest =>
    if '0' ≤ c ∧ c ≤ '9' then digitsValAux (acc * 10 + (c.toNat - '0'.toNat)) rest
    else none

/-- Model of strconv.ParseInt(s, 10, 64): optional sign, a nonempty run
of base-10 digits, and the 64-bit signed range check. -/
def goParseInt64 (s : Str) : Option Int :=
  match s with
  | [] => none
  | c :: rest =>
    let digits : Str := if c = '-' ∨ c = '+' then rest else c :: rest
    match digits with
    | [] => none
    | _ :: _ =>
      match digitsValAux 0 digits with
      | none => none
      | some m =>
        if c = '-' then
          if m ≤ 2 ^ 63 then some (-(m : Int)) else none
        else
          if m ≤ 2 ^ 63 - 1 then some ((m : Int)) else none

/-- Model of strconv.Atoi on a 64-bit platform: ParseInt(s, 10, 0) with
the platform int being 64 bits wide. -/
def goAtoi : Str → Option Int := goParseInt64

/- ### Default registry (source file of Register, Default, Help, pad) -/

/-- GoValue models the dynamic type of the interface value handed to
Register: one constructor per Go runtime type that the sources inspect,
plus vOther for a value of any further type. -/
inductive GoValue where
  | vString (s : Str)
  | vStringSlice (l : List Str)
  | vInt (n : Int)
  | vInt64 (n : Int)
  | vFloat64 (bits : Nat)
  | vBool (b : Bool)
  | vDuration (n : Int)
  | vOther (tyName : Str)
deriving DecidableEq

/-- StringType from the iota constant block. -/
def StringType : Nat := 0

/-- StringSliceType from the iota constant block. -/
def StringSliceType : Nat := 1

/-- IntType from the iota constant block. -/
def IntType : Nat := 2

/-- Float64Type from the iota constant block. -/
def Float64Type : Nat := 3

/-- BoolType from the iota constant block. -/
def BoolType : Nat := 4

/-- DurationType from the iota constant block. -/
def DurationType : Nat := 5

/-- descriptor mirrors the Go struct of the same name. -/
structure descriptor where
  Var : Str
  DataType : Nat
  DefaultValue : GoValue
  Description : Str
deriving DecidableEq

/-- Registry models the global map `registered`. -/
abbrev Registry := List (Str × descriptor)

/-- Go map read `registered[key]` (first matching entry; keys are kept
unique by mapSet). -/
def mapGet : Registry → Str → Option descriptor
  | [], _ => none
  | (k, d) :: rest, key => if k = key then some d else mapGet rest key

/-- Go map write `registered[key] = d`. -/
def mapSet (reg : Registry) (key : Str) (d : descriptor) : Registry :=
  (key, d) :: reg.filter (fun p => !(p.1 == key))

/-- The type switch of Register: the data type tag inferred from the
runtime type of the default value, none for the panicking default case. -/
def dataTypeOf : GoValue → Option Nat
  | .vString _ => some StringType
  | .vStringSlice _ => some StringSliceType
  | .vInt _ => some IntType
  | .vFloat64 _ => some Float64Type
  | .vBool _ => some BoolType
  | .vDuration _ => some DurationType
  | _ => none

/-- Register from the defaults source file.  The none result models the
`invalid type` panic, which happens before the map is written. -/
def Register (key : Str) (defaultValue : GoValue) (description : Str)
    (reg : Registry) : Option Registry :=
  match dataTypeOf defaultValue with
  | some dataType =>
    some (mapSet reg key ⟨key, dataType, defaultValue, description⟩)
  | none => none

/-- Default from the defaults source file: map lookup, found flag as
Option. -/
def Default (key : Str) (reg : Registry) : Option descriptor :=
  mapGet reg key

/-- The typeNames map; a missing tag yields the Go zero value "". -/
def typeNames (dt : Nat) : Str :=
  if dt = StringType then "string".data
  else if dt = StringSliceType then "[]string".data
  else if dt = IntType then "integer".data
  else if dt = Float64Type then "float".data
  else if dt = BoolType then "boolean".data
  else if dt = DurationType then "duration".data
  else []

/-- pad from the defaults source file.  Go evaluates `val[:width-3]`
in the truncation branch; a negative bound is a runtime panic, which is
the none result here. -/
def pad (val : Str) (width : Int) : Option Str :=
  if (val.length : Int) > width then
    if width - 3 < 0 then none
    else some (val.take (width - 3).toNat ++ "...".data)
  else some (val ++ List.replicate (width - (val.length : Int)).toNat ' ')

/-- Lexicographic order on Go strings, as compared by sort.Strings. -/
def strLe (a b : Str) : Bool :=
  match a, b with
  | [], _ => true
  | _ :: _, [] => false
  | x :: xs, y :: ys => if x < y then true else if y < x then false else strLe xs ys

/-- Insert into a sorted list of keys. -/
def insertSorted (x : Str) : List Str → List Str
  | [] => [x]
  | y :: ys => if strLe x y then x :: y :: ys else y :: insertSorted x ys

/-- Model of sort.Strings. -/
def sortStrings (l : List Str) : List Str :=
  l.foldr insertSorted []

/-- The Go zero descriptor (unreachable read of the registry map in
Help is modelled with it). -/
def zeroDescriptor : descriptor := ⟨[], 0, .vString [], []⟩

/-- Two-space column separator printed by Help. -/
def sep2 : Str := "  ".data

/-- One output row of Help: the four padded columns of a key.  A pad
panic aborts the whole call. -/
def helpRow (sprint : GoValue → Str) (reg : Registry)
    (width descW defvalW : Int) (key : Str) : Option Str :=
  let d := (mapGet reg key).getD zeroDescriptor
  match pad key width with
  | none => none
  | some c1 =>
    match pad (typeNames d.DataType) 12 with
    | none => none
    | some c2 =>
      match pad d.Description descW with
      | none => none
      | some c3 =>
        match pad (sprint d.DefaultValue) defvalW with
        | none => none
        | some c4 => some (c1 ++ sep2 ++ c2 ++ sep2 ++ c3 ++ sep2 ++ c4)

/-- Help from the defaults source file.  `sprint` stands for
fmt.Sprintf of a default value and `termWidth` for the width reported by
terminal.GetSize (80 when that call fails).  The result is the list of
printed rows, or none when a pad call panics. -/
def Help (sprint : GoValue → Str) (termWidth : Int) (reg : Registry) :
    Option (List Str) :=
  let keys := reg.map Prod.fst
  let width : Int := reg.foldl (fun w p => max w ((p.1.length : Int))) 0
  let descWidth0 : Int := reg.foldl (fun w p => max w ((p.2.Description.length : Int))) 0
  let defvalWidth0 : Int :=
    reg.foldl (fun w p => max w (((sprint p.2.DefaultValue).length : Int))) 0
  let defvalWidth : Int :=
    if width + descWidth0 + defvalWidth0 + 18 > termWidth then
      if defvalWidth0 > 20 then 20 else defvalWidth0
    else defvalWidth0
  let descWidth : Int :=
    if width + descWidth0 + defvalWidth0 + 18 > termWidth then
      termWidth - width - defvalWidth - 18
    else descWidth0
  (sortStrings keys).mapM (helpRow sprint reg width descWidth defvalWidth)

/- ### Typed accessors (main source file) -/

/-- os.LookupEnv over the explicit environment. -/
def lookupEnv : Env → Str → Option Str
  | [], _ => none
  | (k, v) :: rest, key => if k = key then some v else lookupEnv rest key

/-- os.Setenv over the explicit environment: unconditional overwrite. -/
def osSetenv (key value : Str) (env : Env) : Env :=
  (key, value) :: env.filter (fun p => !(p.1 == key))

/-- The default block of GetInt: int-typed registered default, else 0. -/
def intDefaultOrZero (key : Str) (reg : Registry) : Int :=
  match Default key reg with
  | some d =>
    match d.DefaultValue with
    | .vInt n => n
    | _ => 0
  | none => 0

/-- GetInt from the main source file. -/
def GetInt (key : Str) (env : Env) (reg : Registry) : Int :=
  match lookupEnv env key with
  | some val =>
    match goAtoi val with
    | some n => n
    | none => intDefaultOrZero key reg
  | none => intDefaultOrZero key reg

/-- The default block of GetInt64: its type switch converts an int
default to int64, keeps an int64 default, and yields 0 otherwise. -/
def int64DefaultOrZero (key : Str) (reg : Registry) : Int :=
  match Default key reg with
  | some d =>
    match d.DefaultValue with
    | .vInt n => n
    | .vInt64 n => n
    | _ => 0
  | none => 0

/-- GetInt64 from the main source file. -/
def GetInt64 (key : Str) (env : Env) (reg : Registry) : Int :=
  match lookupEnv env key with
  | some val =>
    match goParseInt64 val with
    | some n => n
    | none => int64DefaultOrZero key reg
  | none => int64DefaultOrZero key reg

/-- The default block of GetBool: bool-typed registered default, else
false. -/
def boolDefaultOrFalse (key : Str) (reg : Registry) : Bool :=
  match Default key reg with
  | some d =>
    match d.DefaultValue with
    | .vBool b => b
    | _ => false
  | none => false

/-- GetBool from the main source file: a set value equal (folded) to
"true" returns true; every other path reaches the default block. -/
def GetBool (key : Str) (env : Env) (reg : Registry) : Bool :=
  match lookupEnv env key with
  | some val =>
    if equalFold val ("true".data) then true else boolDefaultOrFalse key reg
  | none => boolDefaultOrFalse key reg

/-- GetStringSlice from the main source file. -/
def GetStringSlice (key : Str) (env : Env) (reg : Registry) : List Str :=
  match lookupEnv env key with
  | some val => goSplitComma val
  | none =>
    match Default key reg with
    | some d =>
      match d.DefaultValue with
      | .vStringSlice l => l
      | _ => []
    | none => []

/- ### File loading (main source file) -/

/-- GoError models the errors of the main source file: the two sentinel
errors of Load, and the three fmt.Errorf results of process. -/
inductive GoError where
  | errBadUserFile
  | errBadLocalFile
  | errParse (file : Str) (lineNo : Int)
  | errInvalid (file : Str) (lineNo : Int)
  | errSetenv (key value file : Str) (lineNo : Int)
deriving DecidableEq

/-- True exactly for the process error that carries the offending key,
value, file and line. -/
def namesOffender : GoError → Bool
  | .errSetenv _ _ _ _ => true
  | _ => false

/-- LineOutcome classifies one iteration of the scanner loop of
process: skipped line, the two fmt.Errorf failures, or an environment
assignment. -/
inductive LineOutcome where
  | skip
  | errNoEq
  | errEmpty
  | assign (key value : Str)
deriving DecidableEq

/-- The part of the process loop body after comment handling: blank
skip, SplitN on "=", trimming, emptiness checks, assignment. -/
def processLine2 (line : Str) : LineOutcome :=
  if trimSpace line = [] then .skip
  else
    match splitFirstEq line with
    | none => .errNoEq
    | some (p1, p2) =>
      if trimSpace p1 = [] ∨ trimSpace p2 = [] then .errEmpty
      else .assign (trimSpace p1) (trimSpace p2)

/-- One iteration of the scanner loop of process: the strings.Index
comment handling followed by the rest of the body. -/
def processLine (line : Str) : LineOutcome :=
  match goIndexHash line with
  | some 0 => .skip
  | some i => processLine2 (line.take i)
  | none => processLine2 line

/-- The scanner loop of process: lineNo is the Go counter value before
the iteration (it starts at -1 and is incremented at the top of the
loop).  `setenvOk` models whether os.Setenv succeeds for a pair. -/
def processAux (file : Str) (setenvOk : Str → Str → Bool) :
    List Str → Int → Env → Env × Option GoError
  | [], _, env => (env, none)
  | line :: rest, lineNo, env =>
    match processLine line with
    | .skip => processAux file setenvOk rest (lineNo + 1) env
    | .errNoEq => (env, some (.errParse file (lineNo + 1)))
    | .errEmpty => (env, some (.errInvalid file (lineNo + 1)))
    | .assign k v =>
      if setenvOk k v then processAux file setenvOk rest (lineNo + 1) (osSetenv k v env)
      else (env, some (.errSetenv k v file (lineNo + 1)))

/-- process from the main source file, over the lines of the file.  The
environment is returned alongside the error because assignments applied
before a failure persist. -/
def process (file : Str) (setenvOk : Str → Str → Bool) (lines : List Str)
    (env : Env) : Env × Option GoError :=
  processAux file setenvOk lines (-1) env

/-- The file name ".env" used for the local file. -/
def dotEnvName : Str := ".env".data

/-- path.Join(path.Clean(home), ".env") for the home file. -/
def userEnvPath (home : Str) : Str := home ++ ('/' :: dotEnvName)

/-- The local-file half of Load: a process failure is replaced by the
sentinel ErrBadLocalFile. -/
def loadLocal (fs : Str → Option (List Str)) (setenvOk : Str → Str → Bool)
    (env : Env) : Env × Option GoError :=
  match fs dotEnvName with
  | some lines =>
    match process dotEnvName setenvOk lines env with
    | (env', some _) => (env', some .errBadLocalFile)
    | (env', none) => (env', none)
  | none => (env, none)

/-- Load from the main source file.  `homeDir` is the result of
os.UserHomeDir (none when it errors), `fs` maps an existing file name to
its lines.  A home-file process failure returns ErrBadUserFile at once;
otherwise the local file is handled. -/
def Load (homeDir : Option Str) (fs : Str → Option (List Str))
    (setenvOk : Str → Str → Bool) (env : Env) : Env × Option GoError :=
  match homeDir with
  | some home =>
    match fs (userEnvPath home) with
    | some lines =>
      match process (userEnvPath home) setenvOk lines env with
      | (env', some _) => (env', some .errBadUserFile)
      | (env', none) => loadLocal fs setenvOk env'
    | none => loadLocal fs setenvOk env
  | none => loadLocal fs setenvOk env

/- ### Spec-side definitions, written from the words of the claims -/

/-- Modelled from the spec: the comment rule of claim C5, the text from
the first `#` character to end of line is discarded. -/
def specStrip (line : Str) : Str :=
  line.takeWhile (fun c => !(c == '#'))

/-- Modelled from the spec: what claim C5 prescribes for the content of
a line once the comment is discarded. -/
def specBody (content : Str) : LineOutcome :=
  if trimSpace content = [] then .skip
  else
    match splitFirstEq content with
    | none => .errNoEq
    | some (rawKey, rawValue) =>
      if trimSpace rawKey = [] then .errEmpty
      else if trimSpace rawValue = [] then .errEmpty
      else .assign (trimSpace rawKey) (trimSpace rawValue)

/-- Modelled from the spec: the per-line processing rule of claim C5. -/
def specProcessLine (line : Str) : LineOutcome :=
  specBody (specStrip line)

/-- Spec-side reading of the registry for GetBool: the registered
default when a descriptor with a Bool default exists. -/
def registeredBoolDefault (key : Str) (reg : Registry) : Option Bool :=
  match Default key reg with
  | some d =>
    match d.DefaultValue with
    | .vBool b => some b
    | _ => none
  | none => none

/-- Spec-side reading of the registry for GetInt: the registered
default when a descriptor with an Int default exists. -/
def registeredIntDefault (key : Str) (reg : Registry) : Option Int :=
  match Default key reg with
  | some d =>
    match d.DefaultValue with
    | .vInt n => some n
    | _ => none
  | none => none

/-- Spec-side reading of the registry for GetInt64 as amended: the
registered default when a descriptor with an Int64 default, or with an
Int default (converted), exists. -/
def registeredInt64Default (key : Str) (reg : Registry) : Option Int :=
  match Default key reg with
  | some d =>
    match d.DefaultValue with
    | .vInt n => some n
    | .vInt64 n => some n
    | _ => none
  | none => none

/-- The environment does not resolve an int64 for the key: the variable
is unset, or set to a value ParseInt rejects. -/
def envUnresolvedInt64 (key : Str) (env : Env) : Prop :=
  lookupEnv env key = none ∨
    ∃ v, lookupEnv env key = some v ∧ goParseInt64 v = none

/-- Register stores the value under the key with the given type tag and
a later Default finds exactly that descriptor. -/
def regStores (key desc : Str) (reg : Registry) (v : GoValue) (tag : Nat) : Prop :=
  ∃ reg', Register key v desc reg = some reg' ∧
    Default key reg' = some ⟨key, tag, v, desc⟩

/-- A line whose processing fails: one of the two fmt.Errorf outcomes,
or an assignment the host refuses. -/
def lineFails (setenvOk : Str → Str → Bool) (o : LineOutcome) : Prop :=
  o = .errNoEq ∨ o = .errEmpty ∨
    ∃ k v, o = .assign k v ∧ setenvOk k v = false

/- ### Concrete fixtures used by counterexamples and witnesses -/

/-- A file system with no file at all. -/
def fsNone : Str → Option (List Str) := fun _ => none

/-- A file system holding a local .env that assigns A and then has a
line with no equals sign. -/
def fsBadline : Str → Option (List Str) := fun f =>
  if f = dotEnvName then some [("A=1".data), ("BADLINE".data)] else none

/-- A file system holding a local .env with one good assignment. -/
def fsA1 : Str → Option (List Str) := fun f =>
  if f = dotEnvName then some [("A=1".data)] else none

/-- A host on which every environment write succeeds. -/
def setenvAlways : Str → Str → Bool := fun _ _ => true

/-- A host that refuses every environment write. -/
def setenvNever : Str → Str → Bool := fun _ _ => false

/-- A registry with one descriptor: a 60-character name, a 5-character
description, a string default rendering to one character. -/
def regHelpNarrow : Registry :=
  [(List.replicate 60 'K',
    ⟨List.replicate 60 'K', StringType, .vString ['x'], "hello".data⟩)]

/-- fmt.Sprintf of the default values appearing in regHelpNarrow: the
%v rendering of a string value is the string itself. -/
def sprintNarrow : GoValue → Str
  | .vString s => s
  | _ => []

/- ### Helper lemmas -/

theorem intDefault_eq (key : Str) (reg : Registry) :
    intDefaultOrZero key reg = (registeredIntDefault key reg).getD 0 := by
  unfold intDefaultOrZero registeredIntDefault
  cases Default key reg with
  | none => rfl
  | some d =>
    obtain ⟨a, b, dv, c⟩ := d
    cases dv <;> rfl

theorem int64Default_eq (key : Str) (reg : Registry) :
    int64DefaultOrZero key reg = (registeredInt64Default key reg).getD 0 := by
  unfold int64DefaultOrZero registeredInt64Default
  cases Default key reg with
  | none => rfl
  | some d =>
    obtain ⟨a, b, dv, c⟩ := d
    cases dv <;> rfl

theorem boolDefault_eq (key : Str) (reg : Registry) :
    boolDefaultOrFalse key reg = (registeredBoolDefault key reg).getD false := by
  unfold boolDefaultOrFalse registeredBoolDefault
  cases Default key reg with
  | none => rfl
  | some d =>
    obtain ⟨a, b, dv, c⟩ := d
    cases dv <;> rfl

theorem goSplitComma_length (v : Str) : 1 ≤ (goSplitComma v).length := by
  induction v with
  | nil => simp [goSplitComma]
  | cons c rest ih =>
    unfold goSplitComma
    by_cases h : c = ','
    · simp [h]
    · simp only [if_neg h]
      cases hs : goSplitComma rest with
      | nil => simp
      | cons a t => simp [hs]

/- ### Claim theorems -/

/-- Claim C1, counterexample.  The claim says that a set value other
than a case variant of "true" makes GetBool return false directly,
never consulting a registered default.  With FLAG set to "false" and a
registered Bool default of true, GetBool returns true: the default was
consulted and won. -/
theorem getBool_cex :
    GetBool ("FLAG".data) [(("FLAG".data), ("false".data))]
      [(("FLAG".data), ⟨"FLAG".data, BoolType, .vBool true, []⟩)] = true := by
  decide

/-- Claim C1 as amended: for a set variable GetBool returns true when
the raw value case-insensitively equals "true"; for every other set
value, and when the variable is unset, it falls through to the
registered Bool default when one exists and to false otherwise. -/
theorem getBool_resolution (key : Str) (env : Env) (reg : Registry) :
    GetBool key env reg =
      (match lookupEnv env key with
       | some val =>
         if equalFold val ("true".data) then true
         else (registeredBoolDefault key reg).getD false
       | none => (registeredBoolDefault key reg).getD false) := by
  unfold GetBool
  cases lookupEnv env key with
  | none => exact boolDefault_eq key reg
  | some val =>
    by_cases h : equalFold val ("true".data) <;>
      simp [h, boolDefault_eq key reg]

/-- Claim C2, counterexample.  The claim lists Int64 among the kinds
for which Register succeeds, but the type switch of Register has no
int64 case: registering an int64 default hits the panicking default
branch (the none result) before anything is stored. -/
theorem register_int64_cex :
    Register ("TIMEOUT".data) (.vInt64 7) [] [] = none := by
  decide

/-- Claim C2 as amended: Register succeeds for the six runtime kinds of
its type switch (string, string slice, int, float64, bool, duration),
and a subsequent Default finds a descriptor carrying the tag inferred
from the kind and the input value itself; for a value of any other kind,
int64 included, Register panics without writing the registry. -/
theorem register_then_default (key desc : Str) (reg : Registry) :
    (∀ s, regStores key desc reg (.vString s) StringType) ∧
    (∀ l, regStores key desc reg (.vStringSlice l) StringSliceType) ∧
    (∀ n, regStores key desc reg (.vInt n) IntType) ∧
    (∀ bits, regStores key desc reg (.vFloat64 bits) Float64Type) ∧
    (∀ b, regStores key desc reg (.vBool b) BoolType) ∧
    (∀ n, regStores key desc reg (.vDuration n) DurationType) ∧
    (∀ n, Register key (.vInt64 n) desc reg = none) ∧
    (∀ t, Register key (.vOther t) desc reg = none) := by
  refine ⟨fun s => ?_, fun l => ?_, fun n => ?_, fun bits => ?_,
    fun b => ?_, fun n => ?_, fun n => rfl, fun t => rfl⟩ <;>
    exact ⟨_, rfl, by simp [Default, mapSet, mapGet]⟩

/-- Claim C3, counterexample.  The claim says that when a descriptor
exists whose default was registered from an Int value, GetInt64 returns
the zero value 0; the type switch of GetInt64 instead converts an int
default to int64 and returns it: with DB_MAX unset and an Int default
of 5 registered, GetInt64 returns 5. -/
theorem getInt64_int_default_cex :
    GetInt64 ("DB_MAX".data) []
      [(("DB_MAX".data), ⟨"DB_MAX".data, IntType, .vInt 5, []⟩)] = 5 := by
  decide

/-- Claim C3 as amended: when the variable is unset or set to a value
ParseInt rejects, GetInt64 returns the registered default when its
runtime type is int64 or int (an int default is converted), and the
zero value 0 for a descriptor of any other type or no descriptor. -/
theorem getInt64_fallback (key : Str) (env : Env) (reg : Registry)
    (h : envUnresolvedInt64 key env) :
    GetInt64 key env reg = (registeredInt64Default key reg).getD 0 := by
  unfold GetInt64
  rcases h with h | ⟨v, hv, hp⟩
  · rw [h]
    exact int64Default_eq key reg
  · simp only [hv, hp]
    exact int64Default_eq key reg

/-- Claim C3 witness: the amended theorem applied at the concrete
counterexample input. -/
theorem getInt64_fallback_witness :
    envUnresolvedInt64 ("DB_MAX".data) [] ∧
      GetInt64 ("DB_MAX".data) []
          [(("DB_MAX".data), ⟨"DB_MAX".data, IntType, .vInt 5, []⟩)] =
        (registeredInt64Default ("DB_MAX".data)
            [(("DB_MAX".data), ⟨"DB_MAX".data, IntType, .vInt 5, []⟩)]).getD 0 :=
  ⟨Or.inl rfl,
    getInt64_fallback ("DB_MAX".data) []
      [(("DB_MAX".data), ⟨"DB_MAX".data, IntType, .vInt 5, []⟩)] (Or.inl rfl)⟩

/-- Claim C7: GetInt returns the parsed base-10 value of a set and
parseable variable; a set but unparseable value and an unset variable
both resolve to the registered Int default when one exists and to 0
otherwise, never an error.  The two closing conjuncts check the
concrete examples of the spec. -/
theorem getInt_resolution (key : Str) (env : Env) (reg : Registry) :
    (GetInt key env reg =
      (match lookupEnv env key with
       | some v =>
         match goAtoi v with
         | some n => n
         | none => (registeredIntDefault key reg).getD 0
       | none => (registeredIntDefault key reg).getD 0)) ∧
    GetInt ("MAX_CONNS".data) [(("MAX_CONNS".data), ("10".data))] [] = 10 ∧
    GetInt ("MAX_CONNS".data) [(("MAX_CONNS".data), ("abc".data))] [] = 0 := by
  refine ⟨?_, by decide, by decide⟩
  unfold GetInt
  simp only [intDefault_eq key reg]

/-- Claim C10: for a set variable GetStringSlice returns the comma
split of the raw value, a sequence that is never empty; a variable set
to the empty string yields the one-element sequence holding the empty
string; and the registry never influences the result of a set
variable. -/
theorem getStringSlice_set (key : Str) (env : Env) (reg : Registry) (v : Str)
    (h : lookupEnv env key = some v) :
    GetStringSlice key env reg = goSplitComma v ∧
    1 ≤ (GetStringSlice key env reg).length ∧
    (v = [] → GetStringSlice key env reg = [[]]) ∧
    (∀ reg', GetStringSlice key env reg' = GetStringSlice key env reg) := by
  have he : GetStringSlice key env reg = goSplitComma v := by
    unfold GetStringSlice
    rw [h]
  refine ⟨he, ?_, ?_, ?_⟩
  · rw [he]
    exact goSplitComma_length v
  · intro hv
    rw [he, hv]
    rfl
  · intro reg'
    rw [he]
    unfold GetStringSlice
    rw [h]

/-- Claim C10 witness: the theorem applied with LIST set to the empty
string, giving the one-element sequence holding the empty string. -/
theorem getStringSlice_set_witness :
    lookupEnv [(("LIST".data), ([] : Str))] ("LIST".data) = some [] ∧
      GetStringSlice ("LIST".data) [(("LIST".data), ([] : Str))] [] = [[]] :=
  ⟨rfl, (getStringSlice_set ("LIST".data) [(("LIST".data), ([] : Str))] [] []
      rfl).2.2.1 rfl⟩

/- ### Helper lemmas for the line-processing claims -/

theorem specStrip_of_none (line : Str) (h : goIndexHash line = none) :
    specStrip line = line := by
  induction line with
  | nil => rfl
  | cons c rest ih =>
    unfold goIndexHash at h
    by_cases hc : c = '#'
    · simp [hc] at h
    · rw [if_neg hc, Option.map_eq_none'] at h
      unfold specStrip at ih ⊢
      rw [List.takeWhile_cons, if_pos (by simp [hc]), ih h]

theorem specStrip_of_some (line : Str) :
    ∀ i, goIndexHash line = some i → specStrip line = line.take i := by
  induction line with
  | nil => intro i h; simp [goIndexHash] at h
  | cons c rest ih =>
    intro i h
    unfold goIndexHash at h
    by_cases hc : c = '#'
    · rw [if_pos hc] at h
      injection h with h
      subst h
      subst hc
      simp [specStrip]
    · rw [if_neg hc] at h
      cases hf : goIndexHash rest with
      | none => rw [hf] at h; simp at h
      | some j =>
        rw [hf, Option.map_some'] at h
        injection h with h
        subst h
        unfold specStrip at ih ⊢
        rw [List.takeWhile_cons, if_pos (by simp [hc]), List.take_succ_cons,
          ih j hf]

theorem processLine2_model (x : Str) : processLine2 x = specBody x := by
  unfold processLine2 specBody
  by_cases h : trimSpace x = []
  · simp [h]
  · simp only [if_neg h]
    cases hs : splitFirstEq x with
    | none => rfl
    | some p =>
      obtain ⟨a, b⟩ := p
      by_cases h1 : trimSpace a = [] <;> by_cases h2 : trimSpace b = [] <;>
        simp [h1, h2]

theorem processLine_model (line : Str) : processLine line = specProcessLine line := by
  unfold processLine specProcessLine
  cases h : goIndexHash line with
  | none =>
    rw [specStrip_of_none line h]
    exact processLine2_model line
  | some i =>
    cases i with
    | zero =>
      rw [specStrip_of_some line 0 h]
      rfl
    | succ j =>
      rw [specStrip_of_some line (j + 1) h]
      exact processLine2_model (line.take (j + 1))

theorem processAux_nil (file : Str) (setenvOk : Str → Str → Bool) (n : Int)
    (env : Env) : processAux file setenvOk [] n env = (env, none) := rfl

theorem processAux_cons (file : Str) (setenvOk : Str → Str → Bool) (line : Str)
    (rest : List Str) (n : Int) (env : Env) :
    processAux file setenvOk (line :: rest) n env =
      (match processLine line with
       | .skip => processAux file setenvOk rest (n + 1) env
       | .errNoEq => (env, some (.errParse file (n + 1)))
       | .errEmpty => (env, some (.errInvalid file (n + 1)))
       | .assign k v =>
         if setenvOk k v then
           processAux file setenvOk rest (n + 1) (osSetenv k v env)
         else (env, some (.errSetenv k v file (n + 1)))) := rfl

theorem processAux_skip {file : Str} {setenvOk : Str → Str → Bool}
    {line : Str} {rest : List Str} {n : Int} {env : Env}
    (h : processLine line = .skip) :
    processAux file setenvOk (line :: rest) n env =
      processAux file setenvOk rest (n + 1) env := by
  rw [processAux_cons, h]

theorem processAux_noEq {file : Str} {setenvOk : Str → Str → Bool}
    {line : Str} {rest : List Str} {n : Int} {env : Env}
    (h : processLine line = .errNoEq) :
    processAux file setenvOk (line :: rest) n env =
      (env, some (.errParse file (n + 1))) := by
  rw [processAux_cons, h]

theorem processAux_empty {file : Str} {setenvOk : Str → Str → Bool}
    {line : Str} {rest : List Str} {n : Int} {env : Env}
    (h : processLine line = .errEmpty) :
    processAux file setenvOk (line :: rest) n env =
      (env, some (.errInvalid file (n + 1))) := by
  rw [processAux_cons, h]

theorem processAux_assign {file : Str} {setenvOk : Str → Str → Bool}
    {line : Str} {rest : List Str} {n : Int} {env : Env} {k v : Str}
    (h : processLine line = .assign k v) :
    processAux file setenvOk (line :: rest) n env =
      (if setenvOk k v then
        processAux file setenvOk rest (n + 1) (osSetenv k v env)
       else (env, some (.errSetenv k v file (n + 1)))) := by
  rw [processAux_cons, h]

theorem processAux_append (file : Str) (setenvOk : Str → Str → Bool)
    (xs ys : List Str) :
    ∀ (n : Int) (env : Env),
      processAux file setenvOk (xs ++ ys) n env =
        (match processAux file setenvOk xs n env with
         | (env', none) =>
           processAux file setenvOk ys (n + (xs.length : Int)) env'
         | (env', some e) => (env', some e)) := by
  induction xs with
  | nil => intro n env; simp [processAux_nil]
  | cons line rest ih =>
    intro n env
    have hc : n + 1 + (rest.length : Int) = n + (((rest.length + 1 : Nat)) : Int) := by
      push_cast
      ring
    rw [List.cons_append]
    cases hl : processLine line with
    | skip =>
      rw [processAux_skip hl, processAux_skip hl, ih (n + 1) env]
      simp only [List.length_cons, hc]
    | errNoEq => rw [processAux_noEq hl, processAux_noEq hl]
    | errEmpty => rw [processAux_empty hl, processAux_empty hl]
    | assign k v =>
      rw [processAux_assign hl, processAux_assign hl]
      cases hs : setenvOk k v with
      | true =>
        rw [if_pos rfl, if_pos rfl, ih (n + 1) (osSetenv k v env)]
        simp only [List.length_cons, hc]
      | false =>
        rw [if_neg (by simp), if_neg (by simp)]

theorem process_append_ok (file : Str) (setenvOk : Str → Str → Bool)
    (good : List Str) (bad : Str) (rest : List Str) (env : Env)
    (hok : (process file setenvOk good env).2 = none) :
    process file setenvOk (good ++ bad :: rest) env =
      processAux file setenvOk (bad :: rest) (-1 + (good.length : Int))
        (process file setenvOk good env).1 := by
  have h1 : processAux file setenvOk good (-1) env =
      ((process file setenvOk good env).1, none) := by
    unfold process at hok ⊢
    rw [← hok]
  unfold process
  rw [processAux_append file setenvOk good (bad :: rest) (-1) env, h1]

theorem processAux_fail_step (file : Str) (setenvOk : Str → Str → Bool)
    (bad : Str) (rest : List Str) (n : Int) (env : Env)
    (hbad : lineFails setenvOk (processLine bad)) :
    ∃ e, processAux file setenvOk (bad :: rest) n env = (env, some e) := by
  rcases hbad with hb | hb | ⟨k, v, hb, hsv⟩
  · exact ⟨_, by rw [processAux_noEq hb]⟩
  · exact ⟨_, by rw [processAux_empty hb]⟩
  · exact ⟨GoError.errSetenv k v file (n + 1),
      by rw [processAux_assign hb, if_neg (by simp [hsv])]⟩

/- ### File-loading claim theorems -/

/-- Claim C5: a processed line first has the text from the first `#`
discarded (the whole line when `#` leads), is skipped when blank after
that and trimming, is split on the first `=` with both sides trimmed,
fails when no `=` is found or a trimmed side is empty, and otherwise
assigns value to key, overwriting any prior value; the two failures are
reported with the zero-based number of the offending line. -/
theorem process_line_semantics :
    (∀ line, processLine line = specProcessLine line) ∧
    (∀ k v env, lookupEnv (osSetenv k v env) k = some v) ∧
    (∀ file setenvOk good bad rest env,
      (process file setenvOk good env).2 = none →
      (processLine bad = .errNoEq →
        (process file setenvOk (good ++ bad :: rest) env).2 =
          some (.errParse file (good.length : Int))) ∧
      (processLine bad = .errEmpty →
        (process file setenvOk (good ++ bad :: rest) env).2 =
          some (.errInvalid file (good.length : Int)))) := by
  refine ⟨processLine_model, ?_, ?_⟩
  · intro k v env
    simp [lookupEnv, osSetenv]
  · intro file setenvOk good bad rest env hok
    have harith : -1 + (good.length : Int) + 1 = (good.length : Int) := by ring
    constructor <;> intro hb
    · rw [process_append_ok file setenvOk good bad rest env hok,
        processAux_noEq hb, harith]
    · rw [process_append_ok file setenvOk good bad rest env hok,
        processAux_empty hb, harith]

/-- Claim C5 witness: the error-numbering part applied to a file whose
first line is BADLINE. -/
theorem process_line_semantics_witness :
    (process dotEnvName (fun _ _ => true) [] []).2 = none ∧
    processLine ("BADLINE".data) = LineOutcome.errNoEq ∧
    (process dotEnvName (fun _ _ => true) ([] ++ ("BADLINE".data) :: []) []).2 =
      some (GoError.errParse dotEnvName ((([] : List Str).length : Int))) := by
  refine ⟨rfl, by decide, ?_⟩
  exact (process_line_semantics.2.2 dotEnvName (fun _ _ => true) []
    ("BADLINE".data) [] [] rfl).1 (by decide)

/-- Claim C6: when the local file has a prefix of lines that process
successfully and then a failing line, Load returns an error and the
environment it leaves behind is exactly the one the successful prefix
built: nothing is rolled back. -/
theorem load_no_rollback (fs : Str → Option (List Str))
    (setenvOk : Str → Str → Bool) (good : List Str) (bad : Str)
    (rest : List Str) (env : Env)
    (hfs : fs dotEnvName = some (good ++ bad :: rest))
    (hok : (process dotEnvName setenvOk good env).2 = none)
    (hbad : lineFails setenvOk (processLine bad)) :
    (Load none fs setenvOk env).1 = (process dotEnvName setenvOk good env).1 ∧
    (Load none fs setenvOk env).2 = some GoError.errBadLocalFile := by
  obtain ⟨e, hstep⟩ := processAux_fail_step dotEnvName setenvOk bad rest
    (-1 + (good.length : Int)) (process dotEnvName setenvOk good env).1 hbad
  have he : process dotEnvName setenvOk (good ++ bad :: rest) env =
      ((process dotEnvName setenvOk good env).1, some e) := by
    rw [process_append_ok dotEnvName setenvOk good bad rest env hok, hstep]
  constructor <;> simp only [Load, loadLocal, hfs, he]

/-- Claim C6 witness: a local file assigning A=1 and then failing on
BADLINE keeps the A assignment and reports the local-file error. -/
theorem load_no_rollback_witness :
    fsBadline dotEnvName = some ([("A=1".data)] ++ ("BADLINE".data) :: []) ∧
    (process dotEnvName setenvAlways [("A=1".data)] []).2 = none ∧
    lineFails setenvAlways (processLine ("BADLINE".data)) ∧
    (Load none fsBadline setenvAlways []).1 =
      (process dotEnvName setenvAlways [("A=1".data)] []).1 ∧
    (Load none fsBadline setenvAlways []).2 = some GoError.errBadLocalFile := by
  refine ⟨by decide, by decide, Or.inl (by decide), ?_, ?_⟩
  · exact (load_no_rollback fsBadline setenvAlways [("A=1".data)]
      ("BADLINE".data) [] [] (by decide) (by decide) (Or.inl (by decide))).1
  · exact (load_no_rollback fsBadline setenvAlways [("A=1".data)]
      ("BADLINE".data) [] [] (by decide) (by decide) (Or.inl (by decide))).2

/-- Claim C8, counterexample.  With a local file whose only line is a
good assignment and a host that refuses every environment write, the
error Load returns to its caller is the bare sentinel ErrBadLocalFile,
which carries no key, value or line: process built the detailed error,
but Load discarded it. -/
theorem load_sentinel_cex :
    (Load none fsA1 setenvNever []).2 = some GoError.errBadLocalFile ∧
    namesOffender GoError.errBadLocalFile = false := ⟨by decide, rfl⟩

/-- Claim C8 as amended: when an environment write fails during the
processing of the local file, process produces an error naming the
offending key, value, file and line, but Load replaces it with the
sentinel error that identifies only which file failed. -/
theorem setenv_failure_error (fs : Str → Option (List Str))
    (setenvOk : Str → Str → Bool) (good : List Str) (bad : Str)
    (rest : List Str) (env : Env) (k v : Str)
    (hok : (process dotEnvName setenvOk good env).2 = none)
    (hb : processLine bad = .assign k v)
    (hsv : setenvOk k v = false)
    (hfs : fs dotEnvName = some (good ++ bad :: rest)) :
    (process dotEnvName setenvOk (good ++ bad :: rest) env).2 =
      some (.errSetenv k v dotEnvName (good.length : Int)) ∧
    (Load none fs setenvOk env).2 = some GoError.errBadLocalFile := by
  have harith : -1 + (good.length : Int) + 1 = (good.length : Int) := by ring
  have he : process dotEnvName setenvOk (good ++ bad :: rest) env =
      ((process dotEnvName setenvOk good env).1,
        some (.errSetenv k v dotEnvName (good.length : Int))) := by
    rw [process_append_ok dotEnvName setenvOk good bad rest env hok,
      processAux_assign hb, if_neg (by simp [hsv]), harith]
  constructor
  · rw [he]
  · simp only [Load, loadLocal, hfs, he]

/-- Claim C8 witness: the amended theorem applied to a one-line local
file whose write the host refuses. -/
theorem setenv_failure_error_witness :
    (process dotEnvName setenvNever [] []).2 = none ∧
    processLine ("A=1".data) = LineOutcome.assign ("A".data) ("1".data) ∧
    setenvNever ("A".data) ("1".data) = false ∧
    fsA1 dotEnvName = some ([] ++ ("A=1".data) :: []) ∧
    (process dotEnvName setenvNever ([] ++ ("A=1".data) :: []) []).2 =
      some (GoError.errSetenv ("A".data) ("1".data) dotEnvName
        ((([] : List Str).length : Int))) ∧
    (Load none fsA1 setenvNever []).2 = some GoError.errBadLocalFile := by
  refine ⟨rfl, by decide, rfl, by decide, ?_, ?_⟩
  · exact (setenv_failure_error fsA1 setenvNever [] ("A=1".data) [] []
      ("A".data) ("1".data) rfl (by decide) rfl (by decide)).1
  · exact (setenv_failure_error fsA1 setenvNever [] ("A=1".data) [] []
      ("A".data) ("1".data) rfl (by decide) rfl (by decide)).2

/-- Claim C4: Load consults only the home .env and the local .env, in
that order; when neither exists it succeeds without touching the
environment; a failing present home file yields ErrBadUserFile, a
failing present local file yields ErrBadLocalFile, and the two sentinel
errors are distinct, so the caller can tell which file failed. -/
theorem load_behavior (home : Str) (fs : Str → Option (List Str))
    (setenvOk : Str → Str → Bool) (env : Env) :
    (fs (userEnvPath home) = none → fs dotEnvName = none →
      Load (some home) fs setenvOk env = (env, none)) ∧
    (∀ lines, fs (userEnvPath home) = some lines →
      (process (userEnvPath home) setenvOk lines env).2 ≠ none →
      (Load (some home) fs setenvOk env).2 = some GoError.errBadUserFile) ∧
    (∀ lines, fs (userEnvPath home) = none → fs dotEnvName = some lines →
      (process dotEnvName setenvOk lines env).2 ≠ none →
      (Load (some home) fs setenvOk env).2 = some GoError.errBadLocalFile) ∧
    (∀ hlines llines, fs (userEnvPath home) = some hlines →
      (process (userEnvPath home) setenvOk hlines env).2 = none →
      fs dotEnvName = some llines →
      (process dotEnvName setenvOk llines
        (process (userEnvPath home) setenvOk hlines env).1).2 ≠ none →
      (Load (some home) fs setenvOk env).2 = some GoError.errBadLocalFile) ∧
    GoError.errBadUserFile ≠ GoError.errBadLocalFile ∧
    (∀ fs' : Str → Option (List Str),
      fs' (userEnvPath home) = fs (userEnvPath home) →
      fs' dotEnvName = fs dotEnvName →
      Load (some home) fs' setenvOk env = Load (some home) fs setenvOk env) := by
  refine ⟨?_, ?_, ?_, ?_, by decide, ?_⟩
  · intro h1 h2
    simp only [Load, loadLocal, h1, h2]
  · intro lines h1 hne
    cases hp : process (userEnvPath home) setenvOk lines env with
    | mk env' r =>
      cases r with
      | none => rw [hp] at hne; exact absurd rfl hne
      | some e => simp only [Load, h1, hp]
  · intro lines h1 h2 hne
    cases hp : process dotEnvName setenvOk lines env with
    | mk env' r =>
      cases r with
      | none => rw [hp] at hne; exact absurd rfl hne
      | some e => simp only [Load, loadLocal, h1, h2, hp]
  · intro hlines llines h1 h2 h3 hne
    have hp0 : process (userEnvPath home) setenvOk hlines env =
        ((process (userEnvPath home) setenvOk hlines env).1, none) := by
      rw [← h2]
    cases hp : process dotEnvName setenvOk llines
        (process (userEnvPath home) setenvOk hlines env).1 with
    | mk env' r =>
      cases r with
      | none => rw [hp] at hne; exact absurd rfl hne
      | some e =>
        simp only [Load, h1]
        rw [hp0]
        simp only [loadLocal, h3, hp]
  · intro fs' h1 h2
    simp only [Load, loadLocal, h1, h2]

/-- Claim C4 witness: with no file present anywhere, Load succeeds and
changes nothing; the two sentinel errors are distinct. -/
theorem load_behavior_witness :
    fsNone (userEnvPath ("/home/user".data)) = none ∧
    fsNone dotEnvName = none ∧
    Load (some ("/home/user".data)) fsNone (fun _ _ => true) [] = ([], none) ∧
    GoError.errBadUserFile ≠ GoError.errBadLocalFile := by
  refine ⟨rfl, rfl, ?_, ?_⟩
  · exact (load_behavior ("/home/user".data) fsNone (fun _ _ => true) []).1
      rfl rfl
  · exact (load_behavior ("/home/user".data) fsNone (fun _ _ => true) []).2.2.2.2.1

/-- Claim C9: the failing input for the padding of Help.  One
registered setting whose name is 60 characters long, with a 5-character
description and a 1-character default, on an 80-column terminal: Help
computes descWidth = 80 - 60 - 1 - 18 = 1, and pad of the description
evaluates the Go slice expression val[0:1-3], whose negative bound is a
runtime panic (the none result), contradicting the no-panic claim. -/
theorem help_pad_panics : Help sprintNarrow 80 regHelpNarrow = none := by
  decide

end Dotenv
